import Mathlib

/-!
Verification development for the Text2SQL query-generation-and-repair core
(`text2sql/text2sql_agent.py`, `text2sql/sql_generator.py`,
`text2sql/knowledge_base.py`).

The Python code is shallowly embedded: the external collaborators (vector
knowledge search, LLM completion, sqlite engine) are passed in as explicit
functions, exceptions become `Except`, and every embedded operation returns
its value together with a trace of observable calls (`Event`) so that
properties such as "fix is called exactly twice" or "the completion service
is not invoked" can be stated and proved.

String handling mirrors Python string semantics over `List Char`
(these helpers are kernel-reducible, unlike the `Substring`-based core
library functions).
-/

namespace Text2SQL

/-- Python `s.upper()`: uppercase every character. -/
def pyUpper (s : String) : String := ⟨s.data.map Char.toUpper⟩

/-- Python `s.strip()`: remove leading and trailing whitespace. -/
def pyStrip (s : String) : String :=
  ⟨((s.data.dropWhile Char.isWhitespace).reverse.dropWhile Char.isWhitespace).reverse⟩

/-- Python `s.startswith(p)`. -/
def leadsWith (p s : String) : Bool := p.data.isPrefixOf s.data

/-- Python `s.endswith(p)`. -/
def trailsWith (p s : String) : Bool := p.data.reverse.isPrefixOf s.data.reverse

/-- Substring containment on character lists (helper for `hasSub`). -/
def listHasSub (needle : List Char) : List Char → Bool
  | [] => needle.isEmpty
  | c :: rest => needle.isPrefixOf (c :: rest) || listHasSub needle rest

/-- Python `sub in s`: substring containment. -/
def hasSub (sub s : String) : Bool := listHasSub sub.data s.data

/-- Python `s.rstrip(";")`: remove trailing semicolons. -/
def rstripSemi (s : String) : String :=
  ⟨(s.data.reverse.dropWhile (fun c => c = ';')).reverse⟩

/-- Python `s[n:]`: drop the first `n` characters. -/
def pyDropLeft (s : String) (n : Nat) : String := ⟨s.data.drop n⟩

/-- Python `s[:-n]`: drop the last `n` characters. -/
def pyDropRight (s : String) (n : Nat) : String := ⟨s.data.take (s.data.length - n)⟩

/-- Python `sep.join(xs)`. -/
def joinSep (sep : String) : List String → String
  | [] => ""
  | [s] => s
  | s :: rest => s ++ sep ++ joinSep sep rest

/-- One sqlite cell value, as stored in the row dictionaries built by
`_execute_sql` (`None` / integer / text; floats are abstracted as text). -/
inductive Value where
  | vnull
  | vint (i : Int)
  | vtext (s : String)
deriving DecidableEq

/-- Python `v is None`. -/
def Value.isNull : Value → Bool
  | .vnull => true
  | _ => false

/-- One result row: the Python `dict(zip(columns, row))`, an insertion-ordered
mapping from column name to value. -/
abbrev Row := List (String × Value)

/-- One knowledge item as returned by `SimpleKnowledgeBase.search`:
a dict with keys `score` (similarity, numeric type abstracted), `content`
and `type` (one of `"ddl"`, `"description"`, `"q-sql"`). -/
structure KnowledgeItem where
  score : Int
  content : String
  type : String
deriving DecidableEq

/-- The raw reply of a successful sqlite interaction inside `_execute_sql`:
the cursor description (`columns`), the fetched raw rows and
`cursor.rowcount`.  For a mutation, a successful reply also means
`connection.commit()` did not raise; any exception anywhere in the `try`
block is the `Except.error` case of the engine function. -/
structure EngineSuccess where
  columns : List String
  rows : List (List Value)
  rowcount : Int
deriving DecidableEq

/-- The payload of `_execute_sql`: either the query-result dict
`{"columns": .., "rows": .., "count": ..}` or a plain string (mutation
acknowledgement, and on the failure side the error text). -/
inductive ExecValue where
  | queryResult (columns : List String) (rows : List Row) (count : Nat)
  | message (text : String)
deriving DecidableEq

/-- The `Tuple[bool, Any]` returned by `_execute_sql`: the `True` tag with a
payload, or the `False` tag with the error string.  `_execute_sql` itself
never raises (its whole body is inside `try/except Exception`), which the
totality of the embedding reflects. -/
inductive ExecOutcome where
  | ok (v : ExecValue)
  | fail (msg : String)
deriving DecidableEq

/-- Observable calls made during a run, used to state properties such as
"fix is called exactly twice" or "the completion service is not invoked". -/
inductive Event where
  | searchCall (q : String) (topK : Nat)
  | generateCall (q : String)
  | fixCall (q : String) (sql : String) (err : String)
  | summarizeCall (q : String)
  | llmCall (prompt : String)
  | engineExec (sql : String)
  | commitCall
deriving DecidableEq

/-- The dict returned by `SimpleText2SQLAgent.run`, or a Python exception
propagating out of `run` uncaught (`raised`).  `errNotConnected` is the
dict `{"success": False, "error": ..}`; `errExhausted` is the dict
`{"success": False, "question": .., "error": .., "last_sql_attempt": ..}`;
`ok` is the success dict. -/
inductive RunResult where
  | ok (question : String) (sql : String) (results : ExecValue) (summary : String)
  | errNotConnected (error : String)
  | errExhausted (question : String) (error : String) (lastSql : String)
  | raised (e : String)
deriving DecidableEq

/-- The external collaborators of one agent: `knowledge_base.search`
(which may raise), the LLM completion call `self.llm.invoke(prompt).content`
(modelled total), and the sqlite engine (cursor execution, which may
raise). -/
structure Env where
  search : String → Nat → Except String (List KnowledgeItem)
  llm : String → String
  engine : String → Except String EngineSuccess

/-- Configured default `self.max_retry_count = 3`. -/
def max_retry_count : Nat := 3

/-- Configured default `self.top_k_retrieval = 8`. -/
def top_k_retrieval : Nat := 8

/-- Configured default `self.max_result_rows = 100`. -/
def max_result_rows : Nat := 100

/-- Python `dict` single-key assignment `d[k] = v`: overwrite in place if the
key exists (keeping its position), else append. -/
def dictInsert (d : Row) (k : String) (v : Value) : Row :=
  if d.any (fun p => p.1 == k) then
    d.map (fun p => if p.1 == k then (k, v) else p)
  else
    d ++ [(k, v)]

/-- Python `dict(zip(columns, row))`: truncating zip, later duplicate keys
overwrite earlier ones. -/
def dictZip (columns : List String) (vals : List Value) : Row :=
  (List.zip columns vals).foldl (fun d p => dictInsert d p.1 p.2) []

/-- The read-query classification of `_execute_sql`:
`sql.strip().upper().startswith("SELECT")`. -/
def isSelect (sql : String) : Bool := leadsWith ("SELECT") (pyUpper (pyStrip sql))

/-- The limit check of `_execute_sql`: `"LIMIT" in sql.upper()`
(substring containment, not clause detection). -/
def hasLimit (sql : String) : Bool := hasSub ("LIMIT") (pyUpper sql)

/-- The capped statement of `_execute_sql`:
`f"{sql.rstrip(chr(59))} LIMIT {self.max_result_rows};"`. -/
def addLimit (cap : Nat) (sql : String) : String :=
  rstripSemi sql ++ " LIMIT " ++ toString cap ++ ";"

/-- The statement actually handed to `cursor.execute` by `_execute_sql`:
the capped statement for a `SELECT` without the `LIMIT` substring, the
original statement otherwise. -/
def effectiveSql (cap : Nat) (sql : String) : String :=
  if isSelect sql && !hasLimit sql then addLimit cap sql else sql

/-- Embedding of `SimpleText2SQLAgent._execute_sql`.  The engine call
covers `cursor.execute` (and `connection.commit()` for mutations); an
`Except.error` is any exception caught by the surrounding
`except Exception as e: return False, str(e)`.  The trace records the
executed statement and, on the mutation success path, the commit. -/
def execute_sql (cap : Nat) (engine : String → Except String EngineSuccess)
    (sql : String) : ExecOutcome × List Event :=
  match engine (effectiveSql cap sql) with
  | Except.error e => (ExecOutcome.fail e, [Event.engineExec (effectiveSql cap sql)])
  | Except.ok succ =>
    if isSelect sql then
      let results := succ.rows.map (dictZip succ.columns)
      (ExecOutcome.ok (ExecValue.queryResult succ.columns results results.length),
       [Event.engineExec (effectiveSql cap sql)])
    else
      (ExecOutcome.ok (ExecValue.message ("操作成功，影响行数: " ++ toString succ.rowcount)),
       [Event.engineExec (effectiveSql cap sql), Event.commitCall])

/-- Embedding of `SimpleSQLGenerator._build_context`: group the retrieved
items by `type` in the fixed order ddl → description → q-sql. -/
def build_context (knowledge_results : List KnowledgeItem) : String :=
  let ddl_info := (knowledge_results.filter (fun item => item.type == "ddl")).map
    (fun item => item.content)
  let desc_info := (knowledge_results.filter (fun item => item.type == "description")).map
    (fun item => item.content)
  let qsql_pairs := (knowledge_results.filter (fun item => item.type == "q-sql")).map
    (fun item => item.content)
  let context := ""
  let context := if ddl_info.isEmpty then context else
    context ++ "=== 数据库表结构 (DDL) ===\n" ++ joinSep "\n\n" ddl_info ++ "\n\n"
  let context := if desc_info.isEmpty then context else
    context ++ "=== 表和字段的业务描述 ===\n" ++ joinSep "\n" desc_info ++ "\n\n"
  let context := if qsql_pairs.isEmpty then context else
    context ++ "=== 相关查询示例 (Q-SQL对) ===\n" ++ joinSep "\n\n" qsql_pairs ++ "\n\n"
  pyStrip context

/-- The generation prompt f-string of `generate_sql` (indentation of the
Python literal preserved). -/
def genPrompt (context user_query : String) : String :=
  "你是一个SQL专家，你的任务是根据下面提供的数据库信息和用户问题，生成一句可以在SQLite数据库上执行的SQL查询语句。\n\n        ### 数据库信息:\n        " ++ context ++ "\n\n        ### 用户问题:\n        " ++ user_query ++ "\n\n        ### 要求:\n        1.  **只返回SQL语句**，不要包含任何额外的解释、注释或格式化（如 ```sql ... ```）。\n        2.  确保SQL语法与 **SQLite** 兼容。\n        3.  严格使用数据库信息中提供的表名和字段名。不要捏造不存在的字段。\n        4.  如果需要进行多表连接（JOIN），请根据表结构中的主外键关系进行。\n        5.  理解用户问题中的日期和数值，并正确地应用在WHERE子句中。\n\n        SQL语句:\n        "

/-- The repair prompt f-string of `fix_sql`. -/
def fixPrompt (context user_query original_sql error_message : String) : String :=
  "你是一个SQL调试专家。你之前生成的SQL语句在执行时出错了，请根据错误信息和原始的数据库上下文来修正它。\n\n        ### 数据库信息:\n        " ++ context ++ "\n\n        ### 用户问题:\n        " ++ user_query ++ "\n\n        ### 执行失败的SQL:\n        ```sql\n        " ++ original_sql ++ "\n        ```\n\n        ### 数据库返回的错误信息:\n        " ++ error_message ++ "\n\n        ### 要求:\n        1.  **仔细分析错误原因**，并生成一句修正后的、正确的SQLite SQL查询语句。\n        2.  **只返回修复后的SQL语句**，不要包含任何解释或道歉。\n\n        修复后的SQL语句:\n        "

/-- The summarization prompt f-string of `summarize_results`. -/
def summaryPrompt (user_query results_str : String) : String :=
  "你是一个数据分析师，你的任务是根据用户提出的问题和数据库查询返回的JSON格式结果，用自然语言进行总结和解读。\n\n        ### 用户原始问题:\n        " ++ user_query ++ "\n\n        ### 数据库查询结果 (JSON):\n        ```json\n        " ++ results_str ++ "\n        ```\n\n        ### 你的任务:\n        1.  用清晰、简洁、友好的语言，直接回答用户的原始问题。\n        2.  **不要**复述SQL语句或JSON结构。\n        3.  如果结果是一个列表，可以总结关键的几项，例如“排名前三的是...”。\n        4.  如果结果是一个数值，请清晰地呈现这个数值和它的含义。\n        5.  你的回答应该是最终的、可以直接呈现给业务人员的结论。\n\n        总结报告:\n        "

/-- Embedding of `SimpleSQLGenerator.generate_sql`: build context and prompt,
invoke the model, strip residual markdown fences and whitespace.  Note the
source has no emptiness check on the completion. -/
def generate_sql (llm : String → String) (user_query : String)
    (knowledge_results : List KnowledgeItem) : String × List Event :=
  let context := build_context knowledge_results
  let prompt := genPrompt context user_query
  let response := llm prompt
  let sql_query := pyStrip response
  let sql_query := if leadsWith ("```sql") sql_query then pyDropLeft sql_query 6 else sql_query
  let sql_query := if trailsWith ("```") sql_query then pyDropRight sql_query 3 else sql_query
  let sql_query := pyStrip sql_query
  (sql_query, [Event.generateCall user_query, Event.llmCall prompt])

/-- Embedding of `SimpleSQLGenerator.fix_sql`: same post-processing as
`generate_sql`, prompt additionally carrying the failing statement and the
verbatim error text. -/
def fix_sql (llm : String → String) (user_query original_sql error_message : String)
    (knowledge_results : List KnowledgeItem) : String × List Event :=
  let context := build_context knowledge_results
  let prompt := fixPrompt context user_query original_sql error_message
  let response := llm prompt
  let fixed_sql := pyStrip response
  let fixed_sql := if leadsWith ("```sql") fixed_sql then pyDropLeft fixed_sql 6 else fixed_sql
  let fixed_sql := if trailsWith ("```") fixed_sql then pyDropRight fixed_sql 3 else fixed_sql
  let fixed_sql := pyStrip fixed_sql
  (fixed_sql, [Event.fixCall user_query original_sql error_message, Event.llmCall prompt])

/-- JSON string escaping (helper for `jsonDumps`). -/
def jsonString (s : String) : String :=
  "\"" ++ s.data.foldl
    (fun acc c =>
      acc ++ (if c = '\\' then "\\\\" else if c = '\"' then "\\\"" else
        if c = '\n' then "\\n" else String.singleton c))
    "" ++ "\""

/-- JSON rendering of one cell value (helper for `jsonDumps`). -/
def jsonValue : Value → String
  | .vnull => "null"
  | .vint i => toString i
  | .vtext s => jsonString s

/-- JSON rendering of one row dict (helper for `jsonDumps`). -/
def jsonRow (row : Row) : String :=
  "\x7b" ++ joinSep ", " (row.map (fun kv => jsonString kv.1 ++ ": " ++ jsonValue kv.2)) ++ "\x7d"

/-- Models `json.dumps(sql_results, ensure_ascii=False, indent=2)` applied to
the result dict, up to insignificant whitespace (the exact pretty-printed
layout does not matter to any property below). -/
def jsonDumps (columns : List String) (rows : List Row) (count : Nat) : String :=
  "\x7b\"columns\": [" ++ joinSep ", " (columns.map jsonString) ++ "], \"rows\": [" ++
    joinSep ", " (rows.map jsonRow) ++ "], \"count\": " ++ toString count ++ "\x7d"

/-- Embedding of `SimpleSQLGenerator.summarize_results`.  The Python
`"columns" not in sql_results or "rows" not in sql_results` test
distinguishes the query-result dict (which always carries both keys) from
the plain mutation acknowledgement string, i.e. the `ExecValue`
constructor.  `has_meaningful_data` is
`any(row for row in rows if any(v is not None for v in row.values()))`. -/
def summarize_results (llm : String → String) (user_query : String)
    (sql_results : ExecValue) : String × List Event :=
  match sql_results with
  | ExecValue.message _ =>
    ("操作已执行，但没有数据可供总结。", [Event.summarizeCall user_query])
  | ExecValue.queryResult columns rows count =>
    let has_meaningful_data := rows.any (fun row => row.any (fun kv => !(Value.isNull kv.2)))
    if !has_meaningful_data then
      ("根据您的提问 “" ++ user_query ++ "”，数据库中没有找到符合条件的相关记录。",
       [Event.summarizeCall user_query])
    else
      let results_str := jsonDumps columns rows count
      let prompt := summaryPrompt user_query results_str
      (pyStrip (llm prompt), [Event.summarizeCall user_query, Event.llmCall prompt])

/-- The message of the Python `NameError` that `run` would raise if the
`while` loop body never ran (only possible with `max_retry_count = 0`). -/
def nameErrorMsg : String := "NameError: name error_message is not defined"

/-- The exhaustion error f-string of `run`. -/
def exhaustedMsg (m : Nat) (e : String) : String :=
  "SQL执行失败并在" ++ toString m ++ "次重试后仍然失败。最后一次错误: " ++ e

/-- The `while retry_count < self.max_retry_count` loop of
`SimpleText2SQLAgent.run`, with `fuel = m - retry` the number of remaining
iterations.  On success it summarizes and returns the success dict; on
failure it calls `fix_sql` only while `retry_count < self.max_retry_count - 1`,
then increments the counter; falling out of the loop returns the
exhaustion dict carrying the last error message and the last attempted
statement. -/
def runLoop (cap m : Nat) (env : Env) (q : String) (items : List KnowledgeItem) :
    Nat → Nat → String → Option String → RunResult × List Event
  | 0, _retry, sql, lastErr =>
    match lastErr with
    | some e => (RunResult.errExhausted q (exhaustedMsg m e) sql, [])
    | none => (RunResult.raised nameErrorMsg, [])
  | fuel + 1, retry, sql, _lastErr =>
    match execute_sql cap env.engine sql with
    | (ExecOutcome.ok r, ev) =>
      let sm := summarize_results env.llm q r
      (RunResult.ok q sql r sm.1, ev ++ sm.2)
    | (ExecOutcome.fail emsg, ev) =>
      if retry < m - 1 then
        let fx := fix_sql env.llm q sql emsg items
        let rest := runLoop cap m env q items fuel (retry + 1) fx.1 (some emsg)
        (rest.1, ev ++ fx.2 ++ rest.2)
      else
        let rest := runLoop cap m env q items fuel (retry + 1) sql (some emsg)
        (rest.1, ev ++ rest.2)

/-- Embedding of `SimpleText2SQLAgent.run`: the not-connected guard, the
retrieval call (whose exception propagates uncaught — there is no
`try/except` around `self.knowledge_base.search`), the initial generation,
and the execute-and-repair loop entered with `retry_count = 0`. -/
def run (cap m topK : Nat) (connected : Bool) (env : Env) (user_question : String) :
    RunResult × List Event :=
  if !connected then (RunResult.errNotConnected ("数据库未连接"), [])
  else
    match env.search user_question topK with
    | Except.error e => (RunResult.raised e, [Event.searchCall user_question topK])
    | Except.ok knowledge_results =>
      let gen := generate_sql env.llm user_question knowledge_results
      let lp := runLoop cap m env user_question knowledge_results m 0 gen.1 none
      (lp.1, Event.searchCall user_question topK :: (gen.2 ++ lp.2))

/-- `run` with the constructor defaults of `SimpleText2SQLAgent.__init__`. -/
def runDefault (connected : Bool) (env : Env) (q : String) : RunResult × List Event :=
  run max_result_rows max_retry_count top_k_retrieval connected env q

/-- Event classifier: is this an execution attempt? -/
def isExecEvent : Event → Bool
  | .engineExec _ => true
  | _ => false

/-- Event classifier: is this a repair (`fix_sql`) call? -/
def isFixEvent : Event → Bool
  | .fixCall _ _ _ => true
  | _ => false

/-- Event classifier: is this an LLM completion call? -/
def isLlmEvent : Event → Bool
  | .llmCall _ => true
  | _ => false

/-- Number of execution attempts in a trace. -/
def countExec (tr : List Event) : Nat := tr.countP isExecEvent

/-- Number of repair calls in a trace. -/
def countFix (tr : List Event) : Nat := tr.countP isFixEvent

/-- Number of completion-service calls in a trace. -/
def countLlm (tr : List Event) : Nat := tr.countP isLlmEvent

/-- The events of a trace strictly after its final execution attempt. -/
def afterLastExec (tr : List Event) : List Event :=
  (tr.reverse.takeWhile (fun e => !isExecEvent e)).reverse

/-- The statement handed to the engine in the final execution attempt of a
trace (its last `engineExec` event), if any. -/
def lastExecStmt (tr : List Event) : Option String :=
  tr.reverse.findSome? (fun e =>
    match e with
    | Event.engineExec s => some s
    | _ => none)

/-- Split a character list into maximal whitespace-free words (accumulator
holds the current word reversed). -/
def wordsAux : List Char → List Char → List (List Char)
  | cur, [] => if cur.isEmpty then [] else [cur.reverse]
  | cur, c :: rest =>
    if Char.isWhitespace c then
      if cur.isEmpty then wordsAux [] rest else cur.reverse :: wordsAux [] rest
    else wordsAux (c :: cur) rest

/-- Modelled from the spec: the notion of an "explicit row-limit clause"
used by §4.3 ("a read query lacking an explicit row-limit clause") — the
keyword `LIMIT` occurring as a whole whitespace-delimited word of the
statement.  The source itself has no such notion; it only checks substring
containment (`hasLimit`), and the two are compared in claim C6. -/
def hasRowLimitClause (sql : String) : Bool :=
  (wordsAux [] (pyUpper sql).data).contains ("LIMIT").data

/-- Extract the row count of a successful query-result run. -/
def okRowCount : RunResult → Option Nat
  | .ok _ _ (ExecValue.queryResult _ rows _) _ => some rows.length
  | _ => none

/-- Extract the SQL of a success result. -/
def okSqlOf : RunResult → Option String
  | .ok _ sql _ _ => some sql
  | _ => none

/-- An engine that raises on every statement (witness collaborator). -/
def engFail : String → Except String EngineSuccess :=
  fun s => Except.error ("bad: " ++ s)

/-- Collaborators for a fully failing run: retrieval succeeds with an empty
item list, generation proposes `SELECT 1`, every execution raises. -/
def envFail : Env := ⟨fun _ _ => Except.ok [], fun _ => "SELECT 1", engFail⟩

/-- Collaborators exhibiting the row-cap leak: the generated statement
already contains `LIMIT 200`, and the engine dutifully returns 101 rows
(all-null, so the summary short-circuits). -/
def envC2 : Env :=
  ⟨fun _ _ => Except.ok [], fun _ => "SELECT X FROM T LIMIT 200",
   fun _ => Except.ok ⟨["X"], List.replicate 101 [Value.vnull], 0⟩⟩

/-- Collaborators whose engine honours the appended cap trivially (it
returns zero rows for every statement); generation proposes a `SELECT`
without any `LIMIT` substring. -/
def envCap : Env :=
  ⟨fun _ _ => Except.ok [], fun _ => "SELECT X FROM T",
   fun _ => Except.ok ⟨["X"], [], 0⟩⟩

/-- Collaborators whose knowledge search raises. -/
def envC3 : Env :=
  ⟨fun _ _ => Except.error ("kb down"), fun _ => "SELECT 1", engFail⟩

/-! Helper lemmas shared by the claim proofs. -/

/-- When the engine raises, `_execute_sql` catches and returns the `False`
tag with the verbatim message, tracing only the execution attempt. -/
theorem execute_sql_error (cap : Nat) (engine : String → Except String EngineSuccess)
    (sql e : String) (h : engine (effectiveSql cap sql) = Except.error e) :
    execute_sql cap engine sql =
      (ExecOutcome.fail e, [Event.engineExec (effectiveSql cap sql)]) := by
  simp [execute_sql, h]

/-- Every `_execute_sql` call traces exactly one execution attempt and no
repair call. -/
theorem execute_sql_events (cap : Nat) (engine : String → Except String EngineSuccess)
    (sql : String) :
    countExec (execute_sql cap engine sql).2 = 1 ∧
      countFix (execute_sql cap engine sql).2 = 0 := by
  unfold execute_sql
  rcases engine (effectiveSql cap sql) with e | succ
  · simp [countExec, countFix, isExecEvent, isFixEvent]
  · by_cases h : isSelect sql <;>
      simp [h, countExec, countFix, isExecEvent, isFixEvent]

/-- A `fix_sql` call traces exactly one repair call and no execution. -/
theorem fix_sql_events (llm : String → String) (q sql e : String)
    (items : List KnowledgeItem) :
    countFix (fix_sql llm q sql e items).2 = 1 ∧
      countExec (fix_sql llm q sql e items).2 = 0 := by
  simp [fix_sql, countFix, countExec, isFixEvent, isExecEvent]

/-- A `generate_sql` call traces no repair call and no execution. -/
theorem generate_sql_events (llm : String → String) (q : String)
    (items : List KnowledgeItem) :
    countFix (generate_sql llm q items).2 = 0 ∧
      countExec (generate_sql llm q items).2 = 0 := by
  simp [generate_sql, countFix, countExec, isFixEvent, isExecEvent]

/-- A `summarize_results` call traces no repair call and no execution. -/
theorem summarize_results_events (llm : String → String) (q : String)
    (r : ExecValue) :
    countFix (summarize_results llm q r).2 = 0 ∧
      countExec (summarize_results llm q r).2 = 0 := by
  unfold summarize_results
  rcases r with ⟨cols, rows, n⟩ | t
  · by_cases h : rows.any (fun row => row.any (fun kv => !(Value.isNull kv.2))) <;>
      simp [h, countFix, countExec, isFixEvent, isExecEvent]
  · simp [countFix, countExec, isFixEvent, isExecEvent]

/-- Unfolding a connected run whose retrieval succeeds. -/
theorem run_connected_ok (cap m topK : Nat) (env : Env) (q : String)
    (items : List KnowledgeItem) (hs : env.search q topK = Except.ok items) :
    run cap m topK true env q =
      ((runLoop cap m env q items m 0 (generate_sql env.llm q items).1 none).1,
       Event.searchCall q topK :: ((generate_sql env.llm q items).2 ++
         (runLoop cap m env q items m 0 (generate_sql env.llm q items).1 none).2)) := by
  simp [run, hs]

/-- A trace ending in an execution attempt has nothing after its last
execution attempt. -/
theorem afterLastExec_of_reverse_exec (tr : List Event) (s : String)
    (rest : List Event) (h : tr.reverse = Event.engineExec s :: rest) :
    afterLastExec tr = [] := by
  unfold afterLastExec
  rw [h]
  simp [List.takeWhile, isExecEvent]

/-- A trace ending in an execution attempt has that attempt as its final
execution. -/
theorem lastExecStmt_of_reverse_exec (tr : List Event) (s : String)
    (rest : List Event) (h : tr.reverse = Event.engineExec s :: rest) :
    lastExecStmt tr = some s := by
  unfold lastExecStmt
  rw [h]
  rfl

/-- A failing `_execute_sql` call traces exactly the one execution of the
effective statement (no commit). -/
theorem execute_sql_fail_trace (cap : Nat)
    (engine : String → Except String EngineSuccess) (sql e : String)
    (h : (execute_sql cap engine sql).1 = ExecOutcome.fail e) :
    (execute_sql cap engine sql).2 = [Event.engineExec (effectiveSql cap sql)] := by
  rcases heng : engine (effectiveSql cap sql) with e' | succ
  · rw [execute_sql_error cap engine sql e' heng]
  · exfalso
    unfold execute_sql at h
    rw [heng] at h
    by_cases hsel : isSelect sql <;> simp [hsel] at h

/-- Loop analysis when every execution attempt fails: entered with
`fuel + retry = m` remaining iterations, the loop makes exactly `fuel`
execution attempts, `fuel - 1` repair calls, and its trace ends in an
execution attempt (so no repair call follows the final attempt). -/
theorem runLoop_allFail (cap m : Nat) (env : Env) (q : String)
    (items : List KnowledgeItem) (ferr : String → String)
    (hfail : ∀ s, env.engine s = Except.error (ferr s)) :
    ∀ fuel retry sql lastErr, fuel + retry = m → 1 ≤ fuel →
      countFix (runLoop cap m env q items fuel retry sql lastErr).2 = fuel - 1 ∧
      countExec (runLoop cap m env q items fuel retry sql lastErr).2 = fuel ∧
      ∃ s rest, (runLoop cap m env q items fuel retry sql lastErr).2.reverse =
        Event.engineExec s :: rest := by
  intro fuel
  induction fuel with
  | zero => intro retry sql lastErr _ h1; exact absurd h1 (by omega)
  | succ f ih =>
    intro retry sql lastErr hsum _
    have hex := execute_sql_error cap env.engine sql (ferr (effectiveSql cap sql))
      (hfail (effectiveSql cap sql))
    rcases Nat.eq_zero_or_pos f with hf | hf
    · subst hf
      have hcond : ¬ retry < m - 1 := by omega
      simp only [runLoop, hex, if_neg hcond]
      refine ⟨?_, ?_, effectiveSql cap sql, [], ?_⟩ <;>
        simp [runLoop, countFix, countExec, isFixEvent, isExecEvent]
    · have hcond : retry < m - 1 := by omega
      obtain ⟨ihFix, ihExec, s0, rest0, ihRev⟩ :=
        ih (retry + 1) (fix_sql env.llm q sql (ferr (effectiveSql cap sql)) items).1
          (some (ferr (effectiveSql cap sql))) (by omega) hf
      have hfx := fix_sql_events env.llm q sql (ferr (effectiveSql cap sql)) items
      simp only [runLoop, hex, if_pos hcond]
      constructor
      · simp only [countFix, List.countP_append] at ihFix hfx ⊢
        simp [countFix, isFixEvent, ihFix, hfx.1]
        omega
      constructor
      · simp only [countExec, List.countP_append] at ihExec hfx ⊢
        simp [countExec, isExecEvent, ihExec, hfx.2]
        omega
      · refine ⟨s0, rest0 ++ ((fix_sql env.llm q sql (ferr (effectiveSql cap sql)) items).2.reverse
          ++ [Event.engineExec (effectiveSql cap sql)]), ?_⟩
        simp [List.reverse_append, ihRev]

/-- The loop never makes more execution attempts than it has fuel. -/
theorem runLoop_exec_bound (cap m : Nat) (env : Env) (q : String)
    (items : List KnowledgeItem) :
    ∀ fuel retry sql lastErr,
      countExec (runLoop cap m env q items fuel retry sql lastErr).2 ≤ fuel := by
  intro fuel
  induction fuel with
  | zero =>
    intro retry sql lastErr
    rcases lastErr with _ | e <;> simp [runLoop, countExec]
  | succ f ih =>
    intro retry sql lastErr
    rcases hex : execute_sql cap env.engine sql with ⟨o, ev⟩
    have hev : countExec ev = 1 := by
      have := (execute_sql_events cap env.engine sql).1
      rw [hex] at this
      exact this
    rcases o with v | emsg
    · have hsm := (summarize_results_events env.llm q v).2
      simp only [runLoop, hex]
      simp only [countExec, List.countP_append] at hev hsm ⊢
      omega
    · by_cases hcond : retry < m - 1
      · have hfx := (fix_sql_events env.llm q sql emsg items).2
        have hrest := ih (retry + 1)
          (fix_sql env.llm q sql emsg items).1 (some emsg)
        simp only [runLoop, hex, if_pos hcond]
        simp only [countExec, List.countP_append] at hev hfx hrest ⊢
        omega
      · have hrest := ih (retry + 1) sql (some emsg)
        simp only [runLoop, hex, if_neg hcond]
        simp only [countExec, List.countP_append] at hev hrest ⊢
        omega

/-- Entered with `fuel + retry = m` and at least one iteration left, the
loop either returns the success dict or the exhaustion dict; in the
latter case the reported statement and error come from the run's final
execution attempt: the loop trace ends with the execution of the reported
statement (in its effective form) and that execution fails with the
reported message. -/
theorem runLoop_result (cap m : Nat) (env : Env) (q : String)
    (items : List KnowledgeItem) :
    ∀ fuel retry sql lastErr, fuel + retry = m → 1 ≤ fuel →
      (∃ sql2 r s, (runLoop cap m env q items fuel retry sql lastErr).1 =
        RunResult.ok q sql2 r s) ∨
      (∃ e sql2 rest, (execute_sql cap env.engine sql2).1 = ExecOutcome.fail e ∧
        (runLoop cap m env q items fuel retry sql lastErr).1 =
          RunResult.errExhausted q (exhaustedMsg m e) sql2 ∧
        (runLoop cap m env q items fuel retry sql lastErr).2.reverse =
          Event.engineExec (effectiveSql cap sql2) :: rest) := by
  intro fuel
  induction fuel with
  | zero => intro retry sql lastErr _ h1; exact absurd h1 (by omega)
  | succ f ih =>
    intro retry sql lastErr hsum _
    rcases hex : execute_sql cap env.engine sql with ⟨o, ev⟩
    rcases o with v | emsg
    · exact Or.inl ⟨sql, v, (summarize_results env.llm q v).1, by simp [runLoop, hex]⟩
    · have hev : ev = [Event.engineExec (effectiveSql cap sql)] := by
        have h2 := execute_sql_fail_trace cap env.engine sql emsg (by rw [hex])
        rw [hex] at h2
        exact h2
      rcases Nat.eq_zero_or_pos f with hf | hf
      · subst hf
        have hcond : ¬ retry < m - 1 := by omega
        refine Or.inr ⟨emsg, sql, [], ?_, ?_, ?_⟩
        · rw [hex]
        · simp [runLoop, hex, if_neg hcond]
        · simp [runLoop, hex, if_neg hcond, hev]
      · have hcond : retry < m - 1 := by omega
        rcases ih (retry + 1) (fix_sql env.llm q sql emsg items).1 (some emsg)
            (by omega) hf with hok | ⟨e2, sql2, rest2, hfail2, hres2, hrev2⟩
        · obtain ⟨sql2, r2, s2, hok⟩ := hok
          exact Or.inl ⟨sql2, r2, s2, by simp [runLoop, hex, if_pos hcond, hok]⟩
        · refine Or.inr ⟨e2, sql2,
            rest2 ++ ((fix_sql env.llm q sql emsg items).2.reverse ++ ev.reverse),
            hfail2, ?_, ?_⟩
          · simp [runLoop, hex, if_pos hcond, hres2]
          · simp only [runLoop, hex, if_pos hcond]
            rw [List.reverse_append, List.reverse_append, hrev2]
            simp

/-- If the loop returns the success dict, the statement it reports was
executed with exactly that outcome. -/
theorem runLoop_ok_exec (cap m : Nat) (env : Env) (q : String)
    (items : List KnowledgeItem) :
    ∀ fuel retry sql lastErr sql2 r s,
      (runLoop cap m env q items fuel retry sql lastErr).1 =
        RunResult.ok q sql2 r s →
      (execute_sql cap env.engine sql2).1 = ExecOutcome.ok r := by
  intro fuel
  induction fuel with
  | zero =>
    intro retry sql lastErr sql2 r s h
    rcases lastErr with _ | e <;> simp [runLoop] at h
  | succ f ih =>
    intro retry sql lastErr sql2 r s h
    rcases hex : execute_sql cap env.engine sql with ⟨o, ev⟩
    rcases o with v | emsg
    · simp only [runLoop, hex] at h
      obtain ⟨h1, h2, h3, h4⟩ := RunResult.ok.inj h
      rw [← h2, hex, h3]
    · by_cases hcond : retry < m - 1
      · simp only [runLoop, hex, if_pos hcond] at h
        exact ih (retry + 1) (fix_sql env.llm q sql emsg items).1 (some emsg) sql2 r s h
      · simp only [runLoop, hex, if_neg hcond] at h
        exact ih (retry + 1) sql (some emsg) sql2 r s h

/-- A query-result outcome of `_execute_sql` can only come from the read
path: the statement is a `SELECT`, the engine succeeded on the effective
statement, and the returned rows are the engine rows dict-zipped. -/
theorem execute_sql_query_shape (cap : Nat)
    (engine : String → Except String EngineSuccess) (sql : String)
    (cols : List String) (rows : List Row) (n : Nat)
    (h : (execute_sql cap engine sql).1 =
      ExecOutcome.ok (ExecValue.queryResult cols rows n)) :
    isSelect sql = true ∧ ∃ succ, engine (effectiveSql cap sql) = Except.ok succ ∧
      rows = succ.rows.map (dictZip succ.columns) := by
  unfold execute_sql at h
  rcases heng : engine (effectiveSql cap sql) with e | succ <;> rw [heng] at h
  · simp at h
  · by_cases hsel : isSelect sql
    · simp only [hsel, if_true] at h
      obtain ⟨h1, h2, h3⟩ := ExecValue.queryResult.inj (ExecOutcome.ok.inj h).symm
      exact ⟨hsel, succ, heng ▸ rfl, h2⟩
    · simp [hsel] at h

/-! The claims. -/

/-- C1: in a run where every execution attempt fails (connection present,
retrieval succeeded, the engine raises on every statement), `fix_sql` is
called exactly `maxAttempts - 1` times, there are exactly `maxAttempts`
execution attempts, and no repair call occurs after the final execution
attempt; with the default `max_retry_count = 3` this is exactly 2 repair
calls and 3 execution attempts (see the witness). -/
theorem claim_C1 (env : Env) (q : String) (m : Nat) (items : List KnowledgeItem)
    (ferr : String → String) (hm : 1 ≤ m)
    (hs : env.search q top_k_retrieval = Except.ok items)
    (hfail : ∀ s, env.engine s = Except.error (ferr s)) :
    countFix (run max_result_rows m top_k_retrieval true env q).2 = m - 1 ∧
    countExec (run max_result_rows m top_k_retrieval true env q).2 = m ∧
    countFix (afterLastExec (run max_result_rows m top_k_retrieval true env q).2) = 0 := by
  have hrun := run_connected_ok max_result_rows m top_k_retrieval env q items hs
  obtain ⟨hFix, hExec, s0, rest0, hRev⟩ :=
    runLoop_allFail max_result_rows m env q items ferr hfail m 0
      (generate_sql env.llm q items).1 none (by omega) hm
  have hgen := generate_sql_events env.llm q items
  rw [hrun]
  refine ⟨?_, ?_, ?_⟩
  · simp only [countFix, List.countP_cons, List.countP_append] at hFix hgen ⊢
    simp [isFixEvent, hFix, hgen.1]
  · simp only [countExec, List.countP_cons, List.countP_append] at hExec hgen ⊢
    simp [isExecEvent, hExec, hgen.2]
  · have hrev2 : (Event.searchCall q top_k_retrieval :: ((generate_sql env.llm q items).2 ++
        (runLoop max_result_rows m env q items m 0
          (generate_sql env.llm q items).1 none).2)).reverse =
        Event.engineExec s0 :: (rest0 ++ ((generate_sql env.llm q items).2.reverse ++
          [Event.searchCall q top_k_retrieval])) := by
      rw [List.reverse_cons, List.reverse_append, hRev]
      simp
    rw [afterLastExec_of_reverse_exec _ s0 _ hrev2]
    rfl

/-- C1 witness: the default configuration (3 attempts) with an engine that
always raises makes exactly 2 repair calls and 3 execution attempts, and no
repair call after the last attempt. -/
theorem claim_C1_witness :
    countFix (run max_result_rows 3 top_k_retrieval true envFail "q").2 = 3 - 1 ∧
    countExec (run max_result_rows 3 top_k_retrieval true envFail "q").2 = 3 ∧
    countFix (afterLastExec (run max_result_rows 3 top_k_retrieval true envFail "q").2) = 0 :=
  claim_C1 envFail "q" 3 [] (fun s => "bad: " ++ s) (by omega) rfl (fun _ => rfl)

/-- C2 (amended): the row cap is enforced only syntactically, by appending
` LIMIT cap;` to a read query lacking the `LIMIT` substring.  For a
successful run whose reported read statement lacks that substring, the
returned rows are bounded by the cap provided the engine returns at most
`cap` rows for capped statements.  The claim as stated is false: a
statement already containing `LIMIT` is executed unmodified and its rows
are passed through untruncated (see `claim_C2_counterexample`). -/
theorem claim_C2 (env : Env) (q : String) (m : Nat) (items : List KnowledgeItem)
    (sql : String) (cols : List String) (rows : List Row) (n : Nat) (summ : String)
    (hs : env.search q top_k_retrieval = Except.ok items)
    (hcap : ∀ s succ, env.engine (addLimit max_result_rows s) = Except.ok succ →
      succ.rows.length ≤ max_result_rows)
    (hrun : (run max_result_rows m top_k_retrieval true env q).1 =
      RunResult.ok q sql (ExecValue.queryResult cols rows n) summ)
    (hnl : hasLimit sql = false) :
    rows.length ≤ max_result_rows := by
  rw [run_connected_ok max_result_rows m top_k_retrieval env q items hs] at hrun
  have hexec := runLoop_ok_exec max_result_rows m env q items m 0
    (generate_sql env.llm q items).1 none sql (ExecValue.queryResult cols rows n) summ hrun
  obtain ⟨hsel, succ, heng, hrows⟩ :=
    execute_sql_query_shape max_result_rows env.engine sql cols rows n hexec
  have heff : effectiveSql max_result_rows sql = addLimit max_result_rows sql := by
    simp [effectiveSql, hsel, hnl]
  rw [heff] at heng
  have hlen := hcap sql succ heng
  rw [hrows]
  simpa using hlen

/-- C2 witness: a run whose generated read statement has no `LIMIT`
substring, against an engine honouring the cap, succeeds with 0 ≤ 100
rows. -/
theorem claim_C2_witness :
    (run max_result_rows 3 top_k_retrieval true envCap "q").1 =
      RunResult.ok "q" ("SELECT X FROM T") (ExecValue.queryResult ["X"] [] 0)
        ("根据您的提问 “" ++ "q" ++ "”，数据库中没有找到符合条件的相关记录。") ∧
    ([] : List Row).length ≤ max_result_rows := by
  constructor
  · decide
  · exact claim_C2 envCap "q" 3 [] ("SELECT X FROM T") ["X"] [] 0
      ("根据您的提问 “" ++ "q" ++ "”，数据库中没有找到符合条件的相关记录。") rfl
      (fun s succ h => by rw [← Except.ok.inj h]; decide) (by decide) (by decide)

/-- C2 counterexample: the generated statement `SELECT X FROM T LIMIT 200`
already contains `LIMIT`, is executed unmodified, the engine returns 101
rows, and the run reports a success result for a read query carrying 101
rows — strictly more than the configured cap of 100. -/
theorem claim_C2_counterexample :
    okSqlOf (runDefault true envC2 "q").1 = some ("SELECT X FROM T LIMIT 200") ∧
    isSelect ("SELECT X FROM T LIMIT 200") = true ∧
    okRowCount (runDefault true envC2 "q").1 = some 101 ∧
    max_result_rows < 101 :=
  ⟨by decide, by decide, by decide, by decide⟩

/-- C3 (amended): if `knowledge_base.search` raises, the run ends
immediately — no statement is generated or executed, the only traced call
is the retrieval — but the exception propagates uncaught out of `run`
(`RunResult.raised`) instead of being converted into a structured error
dict.  The claim as stated is false: `run` does not return a structured
`Err` result in this case (see `claim_C3_counterexample`). -/
theorem claim_C3 (cap m topK : Nat) (env : Env) (q e : String)
    (h : env.search q topK = Except.error e) :
    run cap m topK true env q = (RunResult.raised e, [Event.searchCall q topK]) := by
  simp [run, h]

/-- C3 witness: a concrete failing knowledge search propagates out of the
default run with nothing else attempted. -/
theorem claim_C3_witness :
    run max_result_rows 3 top_k_retrieval true envC3 "q" =
      (RunResult.raised ("kb down"), [Event.searchCall "q" top_k_retrieval]) :=
  claim_C3 max_result_rows 3 top_k_retrieval envC3 "q" ("kb down") rfl

/-- C3 counterexample: with a raising knowledge search the run result is a
propagated exception (`RunResult.raised`), not one of the structured error
dicts (`errNotConnected` / `errExhausted`), and no SQL was generated or
executed (the trace holds only the search call). -/
theorem claim_C3_counterexample :
    (runDefault true envC3 "q").1 = RunResult.raised ("kb down") ∧
    (runDefault true envC3 "q").2 = [Event.searchCall "q" top_k_retrieval] :=
  ⟨by decide, by decide⟩

/-- C4: when the rows of a query outcome are empty, or every value of every
row is null, `summarize_results` returns the fixed no-matching-records
message and does not invoke the completion service (for every `llm`
collaborator the trace holds no `llmCall` and the result does not depend
on `llm`). -/
theorem claim_C4 (llm : String → String) (q : String) (cols : List String)
    (rows : List Row) (n : Nat)
    (h : ∀ row ∈ rows, ∀ kv ∈ row, Value.isNull kv.2 = true) :
    summarize_results llm q (ExecValue.queryResult cols rows n) =
      ("根据您的提问 “" ++ q ++ "”，数据库中没有找到符合条件的相关记录。",
       [Event.summarizeCall q]) := by
  have hany : rows.any (fun row => row.any (fun kv => !(Value.isNull kv.2))) = false := by
    rw [List.any_eq_false]
    intro row hrow
    rw [Bool.not_eq_true, List.any_eq_false]
    intro kv hkv
    simp [h row hrow kv hkv]
  simp [summarize_results, hany]

/-- C4 witness: the all-null aggregate row yields the fixed message with no
completion call, whatever the model would have answered. -/
theorem claim_C4_witness :
    summarize_results (fun _ => "MODEL OUTPUT") "avg" (ExecValue.queryResult ["A"]
      [[("A", Value.vnull)]] 1) =
      ("根据您的提问 “" ++ "avg" ++ "”，数据库中没有找到符合条件的相关记录。",
       [Event.summarizeCall "avg"]) :=
  claim_C4 (fun _ => "MODEL OUTPUT") "avg" ["A"] [[("A", Value.vnull)]] 1 (by decide)

/-- C5 (amended): `generate_sql` has no emptiness check — when the model
returns an empty completion the generator returns the empty string (no
`GenerationError` exists in the code; per the orchestration design the
empty statement then simply fails at execution time).  The claim as
stated is false (see `claim_C5_counterexample`). -/
theorem claim_C5 (llm : String → String) (q : String) (items : List KnowledgeItem)
    (h : ∀ p, llm p = "") :
    (generate_sql llm q items).1 = "" := by
  simp only [generate_sql, h]
  decide

/-- C5 witness: the constantly empty model yields the empty statement. -/
theorem claim_C5_witness :
    (generate_sql (fun _ => "") "q" []).1 = "" :=
  claim_C5 (fun _ => "") "q" [] (fun _ => rfl)

/-- C5 counterexample: `generate_sql` returns the empty string for an empty
completion, refuting the claim that generate never returns an empty
string or raises instead. -/
theorem claim_C5_counterexample :
    (generate_sql (fun _ => "") ("total sales") []).1 = "" := by
  decide

/-- C6 (amended): for a read query the executed statement is the original
when the uppercased SQL contains the substring `LIMIT` anywhere (even
inside an identifier), and the cap-appended statement otherwise.  The
claim as stated — keyed on an explicit row-limit clause — is false:
`SELECT name FROM delimited` has no limit clause yet is executed
unmodified because `DELIMITED` contains the substring
(see `claim_C6_counterexample`). -/
theorem claim_C6 (cap : Nat) (engine : String → Except String EngineSuccess)
    (sql : String) (hsel : isSelect sql = true) :
    (execute_sql cap engine sql).2 =
      [Event.engineExec (if hasLimit sql then sql else addLimit cap sql)] := by
  have heff : effectiveSql cap sql = if hasLimit sql then sql else addLimit cap sql := by
    by_cases h : hasLimit sql <;> simp [effectiveSql, hsel, h]
  unfold execute_sql
  rw [heff]
  rcases engine (if hasLimit sql then sql else addLimit cap sql) with e | succ
  · rfl
  · simp [hsel]

/-- C6 witness: `SELECT 1` (no `LIMIT` substring) is executed with the cap
appended. -/
theorem claim_C6_witness :
    (execute_sql max_result_rows (fun _ => Except.error ("e")) ("SELECT 1")).2 =
      [Event.engineExec (if hasLimit "SELECT 1" then "SELECT 1"
        else addLimit max_result_rows "SELECT 1")] :=
  claim_C6 max_result_rows (fun _ => Except.error ("e")) ("SELECT 1") (by decide)

/-- C6 counterexample: `SELECT name FROM delimited` is a read query with no
explicit row-limit clause, yet the executor hands it to the engine
unmodified — no `LIMIT` is appended — because the substring test matches
inside the identifier `delimited`. -/
theorem claim_C6_counterexample :
    isSelect ("SELECT name FROM delimited") = true ∧
    hasRowLimitClause ("SELECT name FROM delimited") = false ∧
    (execute_sql max_result_rows (fun _ => Except.error ("e"))
      ("SELECT name FROM delimited")).2 =
      [Event.engineExec ("SELECT name FROM delimited")] :=
  ⟨by decide, by decide, by decide⟩

/-- C7: any exception raised by the engine during execution is caught and
converted into the `False` tag carrying the engine error text verbatim;
`_execute_sql` never raises (the embedding is a total function whose only
failure channel is this tagged return). -/
theorem claim_C7 (cap : Nat) (engine : String → Except String EngineSuccess)
    (sql e : String) (h : engine (effectiveSql cap sql) = Except.error e) :
    execute_sql cap engine sql =
      (ExecOutcome.fail e, [Event.engineExec (effectiveSql cap sql)]) :=
  execute_sql_error cap engine sql e h

/-- C7 witness: a concrete engine error string is returned verbatim. -/
theorem claim_C7_witness :
    execute_sql max_result_rows (fun _ => Except.error ("no such table: t"))
      ("DELETE FROM t") =
      (ExecOutcome.fail ("no such table: t"),
       [Event.engineExec (effectiveSql max_result_rows "DELETE FROM t")]) :=
  claim_C7 max_result_rows (fun _ => Except.error ("no such table: t"))
    ("DELETE FROM t") ("no such table: t") rfl

/-- C8: for every run with successful retrieval, the loop makes at most `m`
execution attempts (the counter increases every iteration, so the loop
terminates), and the run either returns the success dict or the exhaustion
dict whose error string embeds the LAST engine error message and whose
`last_sql_attempt` is the LAST attempted statement: the run's final
execution attempt (its last `engineExec` trace event) is exactly the
effective form of the reported statement, and executing that statement
fails with the reported message. -/
theorem claim_C8 (env : Env) (q : String) (m : Nat) (items : List KnowledgeItem)
    (hm : 1 ≤ m) (hs : env.search q top_k_retrieval = Except.ok items) :
    countExec (run max_result_rows m top_k_retrieval true env q).2 ≤ m ∧
    ((∃ sql r s, (run max_result_rows m top_k_retrieval true env q).1 =
        RunResult.ok q sql r s) ∨
     (∃ e sql, (execute_sql max_result_rows env.engine sql).1 = ExecOutcome.fail e ∧
       (run max_result_rows m top_k_retrieval true env q).1 =
         RunResult.errExhausted q (exhaustedMsg m e) sql ∧
       lastExecStmt (run max_result_rows m top_k_retrieval true env q).2 =
         some (effectiveSql max_result_rows sql))) := by
  have hrun := run_connected_ok max_result_rows m top_k_retrieval env q items hs
  have h1 : (run max_result_rows m top_k_retrieval true env q).1 =
      (runLoop max_result_rows m env q items m 0
        (generate_sql env.llm q items).1 none).1 := by
    rw [hrun]
  have h2 : (run max_result_rows m top_k_retrieval true env q).2 =
      Event.searchCall q top_k_retrieval :: ((generate_sql env.llm q items).2 ++
        (runLoop max_result_rows m env q items m 0
          (generate_sql env.llm q items).1 none).2) := by
    rw [hrun]
  constructor
  · rw [h2]
    have hloop := runLoop_exec_bound max_result_rows m env q items m 0
      (generate_sql env.llm q items).1 none
    have hgen := generate_sql_events env.llm q items
    simp only [countExec, List.countP_cons, List.countP_append] at hloop hgen ⊢
    simp [isExecEvent]
    omega
  · rcases runLoop_result max_result_rows m env q items m 0
        (generate_sql env.llm q items).1 none (by omega) hm with
      hok | ⟨e, sql2, rest2, hfail, hres, hrev⟩
    · obtain ⟨sql2, r2, s2, hok⟩ := hok
      exact Or.inl ⟨sql2, r2, s2, by rw [h1, hok]⟩
    · refine Or.inr ⟨e, sql2, hfail, by rw [h1, hres], ?_⟩
      apply lastExecStmt_of_reverse_exec _ _
        (rest2 ++ ((generate_sql env.llm q items).2.reverse ++
          [Event.searchCall q top_k_retrieval]))
      rw [h2, List.reverse_cons, List.reverse_append, hrev]
      simp

/-- C8 witness: the fully failing default run makes at most 3 attempts and
ends in the exhaustion dict reporting the statement of its final execution
attempt together with that attempt's error. -/
theorem claim_C8_witness :
    countExec (run max_result_rows 3 top_k_retrieval true envFail "q").2 ≤ 3 ∧
    ((∃ sql r s, (run max_result_rows 3 top_k_retrieval true envFail "q").1 =
        RunResult.ok "q" sql r s) ∨
     (∃ e sql, (execute_sql max_result_rows envFail.engine sql).1 = ExecOutcome.fail e ∧
       (run max_result_rows 3 top_k_retrieval true envFail "q").1 =
         RunResult.errExhausted "q" (exhaustedMsg 3 e) sql ∧
       lastExecStmt (run max_result_rows 3 top_k_retrieval true envFail "q").2 =
         some (effectiveSql max_result_rows sql))) :=
  claim_C8 envFail "q" 3 [] (by omega) rfl

/-- C9: a run on a non-connected agent immediately returns the fixed
not-connected error dict and makes no call at all — no knowledge search,
no generation, no repair, no SQL execution (the trace is empty). -/
theorem claim_C9 (cap m topK : Nat) (env : Env) (q : String) :
    run cap m topK false env q = (RunResult.errNotConnected ("数据库未连接"), []) := by
  simp [run]

/-- C10: a statement not starting (case-insensitively, whitespace-stripped)
with SELECT — e.g. a `WITH` common table expression — is treated as a
mutation: when the engine call succeeds the transaction is committed in the
same call and the outcome is the plain acknowledgement string carrying
`cursor.rowcount`, with no columns/rows payload. -/
theorem claim_C10 (cap : Nat) (engine : String → Except String EngineSuccess)
    (sql : String) (succ : EngineSuccess) (hsel : isSelect sql = false)
    (h : engine sql = Except.ok succ) :
    execute_sql cap engine sql =
      (ExecOutcome.ok (ExecValue.message ("操作成功，影响行数: " ++ toString succ.rowcount)),
       [Event.engineExec sql, Event.commitCall]) := by
  have heff : effectiveSql cap sql = sql := by
    simp [effectiveSql, hsel]
  unfold execute_sql
  rw [heff, h]
  simp [hsel]

/-- C10 witness: a `WITH` common table expression is classified as a
mutation and acknowledged with the affected-row count. -/
theorem claim_C10_witness :
    execute_sql max_result_rows (fun _ => Except.ok ⟨[], [], 5⟩)
      ("WITH t AS (SELECT 1) SELECT * FROM t") =
      (ExecOutcome.ok (ExecValue.message ("操作成功，影响行数: " ++ toString (5 : Int))),
       [Event.engineExec ("WITH t AS (SELECT 1) SELECT * FROM t"), Event.commitCall]) :=
  claim_C10 max_result_rows (fun _ => Except.ok ⟨[], [], 5⟩)
    ("WITH t AS (SELECT 1) SELECT * FROM t") ⟨[], [], 5⟩ (by decide) rfl

end Text2SQL
